import Mathlib

/-!
Verification of the session-validation and identity-normalization pipeline of
`shared/auth/kratos.go` (package `auth`).

The Go functions are shallowly embedded: each remote HTTP call made through the
generated Kratos client is abstracted as a `CallResult` value (transport error,
or a status code together with a decoded payload), and functions that perform
remote calls take the responses (or a response oracle keyed by the request
argument) as explicit parameters.  Go `interface{}` trait bags are embedded as
the inductive `TraitValue`; Go's zero values (`""`, `false`, nil) are the
default field values of the corresponding structures.
-/

namespace KratosAuth

/-- A Go `interface{}` value as produced by JSON decoding: the shapes
`getStringFromTraits` can encounter.  `null` stands for the nil interface. -/
inductive TraitValue where
  | null : TraitValue
  | str (s : String) : TraitValue
  | num (n : Int) : TraitValue
  | boolean (b : Bool) : TraitValue
  | map (entries : List (String × TraitValue)) : TraitValue
  | arr (elems : List TraitValue) : TraitValue

/-- Whether a trait bag is the nil interface (`traits == nil` in Go). -/
def TraitValue.isNull : TraitValue → Bool
  | .null => true
  | _ => false

/-- Go map indexing `traitsMap[key]` on the decoded `map[string]interface{}`
(keys of a Go map are unique, so first-match lookup is exact). -/
def lookupTrait : List (String × TraitValue) → String → Option TraitValue
  | [], _ => none
  | (k, v) :: rest, key => if k = key then some v else lookupTrait rest key

/-- `getStringFromTraits` (kratos.go lines 233-248): nil bag, non-map bag,
absent key or non-string value all yield `""`. -/
def getStringFromTraits (traits : TraitValue) (key : String) : String :=
  match traits with
  | .null => ""
  | .map entries =>
    match lookupTrait entries key with
    | some (.str s) => s
    | some _ => ""
    | none => ""
  | _ => ""

/-- A verifiable address of an identity (`GetVia`, `GetVerified`). -/
structure VerifiableAddress where
  via : String := ""
  verified : Bool := false
deriving DecidableEq

/-- A recovery address of an identity (`GetVia`). -/
structure RecoveryAddress where
  via : String := ""
deriving DecidableEq

/-- The identity payload of the Kratos API, restricted to the fields the Go
code reads.  Getters on a nil identity pointer return Go zero values, which are
exactly the defaults below, so a nil identity is the default record. -/
structure Identity where
  id : String := ""
  traits : TraitValue := .null
  verifiableAddresses : List VerifiableAddress := []
  recoveryAddresses : List RecoveryAddress := []
  createdAt : Nat := 0
  updatedAt : Nat := 0

/-- The session payload returned by `ToSession` (`GetActive`, `.Identity`). -/
structure Session where
  active : Bool := false
  identity : Identity := {}

/-- The `KratosUser` struct; defaults are Go's zero values, as left by the
struct literals in `ValidateSession` and `GetUser`. -/
structure KratosUser where
  id : String := ""
  email : String := ""
  username : String := ""
  firstName : String := ""
  lastName : String := ""
  phone : String := ""
  subscriptionPlan : String := ""
  avatar : String := ""
  emailVerified : Bool := false
  active : Bool := false
  createdAt : Nat := 0
  updatedAt : Nat := 0
  traits : TraitValue := .null

/-- Outcome of one remote call `payload, resp, err := ....Execute()`:
either `err != nil` (the Go code returns before looking at the response), or
`err == nil` with a status code and decoded payload. -/
inductive CallResult (α : Type) where
  | netErr : CallResult α
  | ok (status : Nat) (payload : α) : CallResult α

/-- The distinct `fmt.Errorf` sites of kratos.go, one constructor per format
string, so error kinds are distinguishable exactly as the messages are. -/
inductive KratosErr where
  | emptyToken : KratosErr                     -- "session token is required"
  | validationTransport : KratosErr            -- "session validation failed: %w"
  | invalidSessionStatus (status : Nat) : KratosErr -- "invalid session: status %d"
  | sessionNotActive : KratosErr               -- "session is not active"
  | getUserTransport : KratosErr               -- "failed to get user: %w"
  | userNotFound (status : Nat) : KratosErr    -- "user not found: status %d"
  | updateTransport : KratosErr                -- "failed to update user: %w"
  | updateStatus (status : Nat) : KratosErr    -- "failed to update user: status %d"
deriving DecidableEq

/-- The first loop of `isEmailVerified` (lines 212-218): return true at the
first verifiable address with via "email" and verified true.  The Go
`len(addresses) > 0` guard is the `[]` case. -/
def hasVerifiedEmailAddr : List VerifiableAddress → Bool
  | [] => false
  | a :: rest =>
    if a.via = "email" ∧ a.verified = true then true else hasVerifiedEmailAddr rest

/-- The second loop of `isEmailVerified` (lines 221-228): return true at the
first recovery address with via "email". -/
def hasEmailRecoveryAddr : List RecoveryAddress → Bool
  | [] => false
  | a :: rest => if a.via = "email" then true else hasEmailRecoveryAddr rest

/-- `isEmailVerified` (lines 201-231).  `remote` is the admin
`GetIdentity` endpoint as a response oracle keyed by the identity id. -/
def isEmailVerified (userID : String) (remote : String → CallResult Identity) : Bool :=
  match remote userID with
  | .netErr => false
  | .ok status identity =>
    if status ≠ 200 then false
    else if hasVerifiedEmailAddr identity.verifiableAddresses then true
    else if hasEmailRecoveryAddr identity.recoveryAddresses then true
    else false

/-- Lines 76-96 of `ValidateSession`: build the `KratosUser` from the session
payload, project traits when the bag is non-nil, then resolve verification. -/
def sessionUser (session : Session) (remote : String → CallResult Identity) : KratosUser :=
  let user : KratosUser :=
    { id := session.identity.id
      active := session.active
      createdAt := session.identity.createdAt
      updatedAt := session.identity.updatedAt }
  let user :=
    if session.identity.traits.isNull then user
    else
      { user with
        traits := session.identity.traits
        email := getStringFromTraits session.identity.traits "email"
        username := getStringFromTraits session.identity.traits "username"
        firstName := getStringFromTraits session.identity.traits "first_name"
        lastName := getStringFromTraits session.identity.traits "last_name"
        phone := getStringFromTraits session.identity.traits "phone"
        subscriptionPlan := getStringFromTraits session.identity.traits "subscription_plan"
        avatar := getStringFromTraits session.identity.traits "avatar" }
  { user with emailVerified := isEmailVerified session.identity.id remote }

/-- `ValidateSession` (lines 53-99).  `ic` is the response of the public
`ToSession` introspection call for this token. -/
def validateSession (token : String) (ic : CallResult Session)
    (remote : String → CallResult Identity) : Except KratosErr KratosUser :=
  if token = "" then .error .emptyToken
  else
    match ic with
    | .netErr => .error .validationTransport
    | .ok status session =>
      if status ≠ 200 then .error (.invalidSessionStatus status)
      else if session.active = false then .error .sessionNotActive
      else .ok (sessionUser session remote)

/-- Lines 114-132 of `GetUser`: build the `KratosUser` from an identity record
(no live session, so `active` keeps its zero value `false`). -/
def identityUser (identity : Identity) (remote : String → CallResult Identity) : KratosUser :=
  let user : KratosUser :=
    { id := identity.id
      createdAt := identity.createdAt
      updatedAt := identity.updatedAt }
  let user :=
    if identity.traits.isNull then user
    else
      { user with
        traits := identity.traits
        email := getStringFromTraits identity.traits "email"
        username := getStringFromTraits identity.traits "username"
        firstName := getStringFromTraits identity.traits "first_name"
        lastName := getStringFromTraits identity.traits "last_name"
        phone := getStringFromTraits identity.traits "phone"
        subscriptionPlan := getStringFromTraits identity.traits "subscription_plan"
        avatar := getStringFromTraits identity.traits "avatar" }
  { user with emailVerified := isEmailVerified identity.id remote }

/-- `GetUser` (lines 102-135): admin `GetIdentity` then normalization. -/
def getUser (userID : String) (remote : String → CallResult Identity) :
    Except KratosErr KratosUser :=
  match remote userID with
  | .netErr => .error .getUserTransport
  | .ok status identity =>
    if status ≠ 200 then .error (.userNotFound status)
    else .ok (identityUser identity remote)

/-- `UpdateUser` (lines 137-155): on a 200 update response, the result is
`GetUser` on the id of the response body (a re-read, not the body itself).
`updateCall` is the response of the `UpdateIdentity` call; `remote` is the
`GetIdentity` oracle in effect after the update. -/
def updateUser (updateCall : CallResult Identity)
    (remote : String → CallResult Identity) : Except KratosErr KratosUser :=
  match updateCall with
  | .netErr => .error .updateTransport
  | .ok status identity =>
    if status ≠ 200 then .error (.updateStatus status)
    else getUser identity.id remote

/-- Go `strings.HasPrefix s p`. -/
def goHasPre (s p : String) : Bool := p.data.isPrefixOf s.data

/-- Go `strings.TrimPrefix s p`: `s` without the leading `p` when `p` is a
prefix, `s` unchanged otherwise. -/
def goTrimPre (s p : String) : String :=
  if p.data.isPrefixOf s.data then ⟨s.data.drop p.data.length⟩ else s

/-- The request metadata `extractSessionToken` reads.  `Header.Get` returns
`""` for an absent header, so absent headers are the empty string; `r.Cookie`
distinguishes an absent cookie (error) from a present one, hence `Option`. -/
structure Request where
  authorization : String := ""
  xSessionToken : String := ""
  cookie : Option String := none

/-- `extractSessionToken` (lines 276-295): Authorization Bearer, then
X-Session-Token, then the `ory_kratos_session` cookie, else `""`.  A non-empty
Authorization value without the Bearer prefix falls through to the next
transport (the inner Go `if` has no else-return). -/
def extractSessionToken (r : Request) : String :=
  if r.authorization ≠ "" ∧ goHasPre r.authorization "Bearer " = true then
    goTrimPre r.authorization "Bearer "
  else if r.xSessionToken ≠ "" then r.xSessionToken
  else
    match r.cookie with
    | some v => v
    | none => ""

/-- What the handler produced by `SessionMiddleware` does with a request:
short-circuit with `http.Error(w, body, 401)`, or install the user in the
request context and invoke the next handler. -/
inductive MiddlewareOutcome where
  | unauthorized (body : String) : MiddlewareOutcome
  | next (user : KratosUser) : MiddlewareOutcome

/-- `SessionMiddleware` (lines 251-274).  `introspect` is the `ToSession`
endpoint as an oracle keyed by the token sent. -/
def sessionMiddleware (r : Request) (introspect : String → CallResult Session)
    (remote : String → CallResult Identity) : MiddlewareOutcome :=
  let sessionToken := extractSessionToken r
  if sessionToken = "" then .unauthorized "Session token required"
  else
    match validateSession sessionToken (introspect sessionToken) remote with
    | .error _ => .unauthorized "Invalid session"
    | .ok user => .next user

/-- Modelled from the spec: the remote identity provider's admin identity
store is not part of this repository (only the client wrapper is).  Per spec
§4.2 and §6, `update_identity` replaces the identity's traits wholesale and
answers 200 with the updated record, and `get_identity` answers 200 with the
stored record, or a not-found status when the id is unknown. -/
structure RemoteStore where
  find : String → Option Identity

/-- Modelled from the spec: the admin `GetIdentity` endpoint over a store. -/
def RemoteStore.getIdentityCall (s : RemoteStore) (uid : String) : CallResult Identity :=
  match s.find uid with
  | some ident => .ok 200 ident
  | none => .ok 404 {}

/-- Modelled from the spec: the admin `UpdateIdentity` endpoint over a store —
wholesale trait replacement, returning the response and the new store. -/
def RemoteStore.updateIdentityCall (s : RemoteStore) (uid : String)
    (traits : TraitValue) : CallResult Identity × RemoteStore :=
  match s.find uid with
  | some ident =>
    let ident' := { ident with traits := traits }
    (.ok 200 ident', ⟨fun k => if k = uid then some ident' else s.find k⟩)
  | none => (.ok 404 {}, s)

/-- `UpdateUser` run against the modelled store: the update call mutates the
store, and the read-after-write `GetUser` sees the post-update store. -/
def updateUserStore (s : RemoteStore) (uid : String) (traits : TraitValue) :
    Except KratosErr KratosUser × RemoteStore :=
  let (call, s') := s.updateIdentityCall uid traits
  (updateUser call s'.getIdentityCall, s')

/-! ### Helper lemmas -/

theorem sessionUser_id (sess : Session) (remote : String → CallResult Identity) :
    (sessionUser sess remote).id = sess.identity.id := by
  unfold sessionUser
  split <;> rfl

theorem hasVerifiedEmailAddr_iff (l : List VerifiableAddress) :
    hasVerifiedEmailAddr l = true ↔ ∃ a ∈ l, a.via = "email" ∧ a.verified = true := by
  induction l with
  | nil => simp [hasVerifiedEmailAddr]
  | cons a rest ih =>
    simp only [hasVerifiedEmailAddr]
    split <;> simp_all

theorem hasEmailRecoveryAddr_iff (l : List RecoveryAddress) :
    hasEmailRecoveryAddr l = true ↔ ∃ a ∈ l, a.via = "email" := by
  induction l with
  | nil => simp [hasEmailRecoveryAddr]
  | cons a rest ih =>
    simp only [hasEmailRecoveryAddr]
    split <;> simp_all

theorem goHasPre_append (p x : String) : goHasPre (p ++ x) p = true := by
  unfold goHasPre
  rw [String.data_append, List.isPrefixOf_iff_prefix]
  exact List.prefix_append p.data x.data

theorem goTrimPre_append (p x : String) : goTrimPre (p ++ x) p = x := by
  unfold goTrimPre
  rw [String.data_append, if_pos]
  · rw [List.drop_left]
  · rw [List.isPrefixOf_iff_prefix]
    exact List.prefix_append p.data x.data

theorem bearer_append_ne_empty (x : String) : ("Bearer " ++ x) ≠ "" := by
  intro h
  have hd : "Bearer ".data ++ x.data = ([] : List Char) := by
    rw [← String.data_append, h]
  rw [List.append_eq_nil] at hd
  exact absurd hd.1 (by decide)

/-! ### Claim theorems -/

/-- C1, counterexample: a 200, active session payload whose identity id is the
empty string is accepted by `validateSession`, and the returned user's `id` is
empty — the code copies the payload id verbatim and never checks it. -/
theorem validateSession_accepts_empty_id :
    (validateSession "t" (CallResult.ok 200 { active := true, identity := {} })
        (fun _ => CallResult.netErr)).toOption.map KratosUser.id = some "" := rfl

/-- C1, amended: every user returned by an accepted `validateSession` call
carries exactly the identity id of the session payload; it is non-empty
whenever the provider's payload identity id is non-empty, but the code does
not itself enforce non-emptiness. -/
theorem validateSession_id_from_payload (token : String) (status : Nat)
    (sess : Session) (remote : String → CallResult Identity) (u : KratosUser)
    (h : validateSession token (CallResult.ok status sess) remote = .ok u) :
    u.id = sess.identity.id ∧ (sess.identity.id ≠ "" → u.id ≠ "") := by
  by_cases ht : token = ""
  · simp [validateSession, ht] at h
  · by_cases hs : status = 200
    · by_cases ha : sess.active
      · have hu : u = sessionUser sess remote := by
          simp [validateSession, ht, hs, ha] at h
          exact h.symm
        subst hu
        refine ⟨sessionUser_id sess remote, fun hne => ?_⟩
        rw [sessionUser_id]
        exact hne
      · simp [validateSession, ht, hs, ha] at h
    · simp [validateSession, ht, hs] at h

/-- C1 witness for the amended theorem. -/
theorem validateSession_id_from_payload_witness :
    ∃ u, validateSession "t" (CallResult.ok 200 { active := true, identity := { id := "u1" } })
        (fun _ => CallResult.netErr) = .ok u ∧ u.id = "u1" := by
  refine ⟨sessionUser { active := true, identity := { id := "u1" } } (fun _ => CallResult.netErr),
    rfl, ?_⟩
  have h := validateSession_id_from_payload "t" 200
    { active := true, identity := { id := "u1" } } (fun _ => CallResult.netErr)
    (sessionUser { active := true, identity := { id := "u1" } } (fun _ => CallResult.netErr)) rfl
  exact h.1

/-- C2: `validateSession` errors exactly on an empty token, a transport
failure, a non-200 status, or an inactive session (the latter regardless of
status); and with an empty token the introspection response is never even
consulted — the result is the empty-credential error for every `ic`.  Because
the result is an `Except`, an error excludes any returned user. -/
theorem validateSession_error_iff (token : String) (ic : CallResult Session)
    (remote : String → CallResult Identity) :
    ((∃ e, validateSession token ic remote = .error e) ↔
      token = "" ∨ ic = CallResult.netErr ∨
        ∃ s sess, ic = CallResult.ok s sess ∧ (s ≠ 200 ∨ sess.active = false)) ∧
    (token = "" → validateSession token ic remote = .error .emptyToken) := by
  constructor
  · constructor
    · rintro ⟨e, he⟩
      by_cases ht : token = ""
      · exact Or.inl ht
      · rw [validateSession.eq_def, if_neg ht] at he
        cases ic with
        | netErr => exact Or.inr (Or.inl rfl)
        | ok s sess =>
          by_cases hs : s = 200
          · by_cases ha : sess.active
            · simp [hs, ha] at he
            · exact Or.inr (Or.inr ⟨s, sess, rfl, Or.inr (by simp [ha])⟩)
          · exact Or.inr (Or.inr ⟨s, sess, rfl, Or.inl hs⟩)
    · intro hcase
      by_cases ht : token = ""
      · exact ⟨.emptyToken, by simp [validateSession, ht]⟩
      · rcases hcase with ht' | hic | ⟨s, sess, hic, hbad⟩
        · exact absurd ht' ht
        · subst hic
          exact ⟨.validationTransport, by simp [validateSession, ht]⟩
        · subst hic
          rcases hbad with hs | ha
          · exact ⟨.invalidSessionStatus s, by simp [validateSession, ht, hs]⟩
          · by_cases hs : s = 200
            · exact ⟨.sessionNotActive, by simp [validateSession, ht, hs, ha]⟩
            · exact ⟨.invalidSessionStatus s, by simp [validateSession, ht, hs]⟩
  · intro ht
    simp [validateSession, ht]

/-- C2 witness: the empty token yields the empty-credential error. -/
theorem validateSession_error_iff_witness :
    validateSession "" CallResult.netErr (fun _ => CallResult.netErr) =
      .error .emptyToken :=
  (validateSession_error_iff "" CallResult.netErr (fun _ => CallResult.netErr)).2 rfl

/-- C3: on a successfully fetched identity record, `isEmailVerified` is true
iff tier 1 matches (a verifiable address with via "email" and verified true),
or tier 1 finds nothing and tier 2 matches (a recovery address with via
"email"). -/
theorem isEmailVerified_iff (uid : String) (remote : String → CallResult Identity)
    (ident : Identity) (h : remote uid = CallResult.ok 200 ident) :
    isEmailVerified uid remote = true ↔
      (∃ a ∈ ident.verifiableAddresses, a.via = "email" ∧ a.verified = true) ∨
      ((¬ ∃ a ∈ ident.verifiableAddresses, a.via = "email" ∧ a.verified = true) ∧
        ∃ a ∈ ident.recoveryAddresses, a.via = "email") := by
  rw [← hasVerifiedEmailAddr_iff, ← hasEmailRecoveryAddr_iff]
  unfold isEmailVerified
  rw [h]
  by_cases h1 : hasVerifiedEmailAddr ident.verifiableAddresses <;>
    by_cases h2 : hasEmailRecoveryAddr ident.recoveryAddresses <;>
      simp [h1, h2]

/-- C3 witness: a record with one verified email address is reported verified. -/
theorem isEmailVerified_iff_witness :
    isEmailVerified "u1"
      (fun _ => CallResult.ok 200
        { id := "u1", verifiableAddresses := [{ via := "email", verified := true }] }) = true := by
  refine (isEmailVerified_iff "u1" _
    { id := "u1", verifiableAddresses := [{ via := "email", verified := true }] } rfl).mpr ?_
  exact Or.inl ⟨{ via := "email", verified := true }, by simp, rfl, rfl⟩

/-- C4: `isEmailVerified` fails closed — a transport error or a non-200
status on the identity lookup yields `false`.  As a Lean function it is total
by construction, matching "never propagates an error to its caller". -/
theorem isEmailVerified_fails_closed (uid : String)
    (remote : String → CallResult Identity)
    (h : remote uid = CallResult.netErr ∨
      ∃ s ident, remote uid = CallResult.ok s ident ∧ s ≠ 200) :
    isEmailVerified uid remote = false := by
  unfold isEmailVerified
  rcases h with h | ⟨s, ident, h, hs⟩
  · rw [h]
  · rw [h]
    simp [hs]

/-- C4 witness: a transport failure on the lookup yields `false`. -/
theorem isEmailVerified_fails_closed_witness :
    isEmailVerified "u1" (fun _ => CallResult.netErr) = false :=
  isEmailVerified_fails_closed "u1" (fun _ => CallResult.netErr) (Or.inl rfl)

/-- C5: the credential extractor selects the Bearer token of the
Authorization header whatever the X-Session-Token header and cookie hold;
and with no Authorization header the X-Session-Token header wins over the
cookie, the cookie (or `""`) being last. -/
theorem extractSessionToken_priority (x y : String) (c : Option String) :
    extractSessionToken { authorization := "Bearer " ++ x, xSessionToken := y, cookie := c }
      = x ∧
    extractSessionToken { authorization := "", xSessionToken := y, cookie := c }
      = (if y ≠ "" then y else c.getD "") := by
  constructor
  · show (if ("Bearer " ++ x) ≠ "" ∧ goHasPre ("Bearer " ++ x) "Bearer " = true then
        goTrimPre ("Bearer " ++ x) "Bearer "
      else if y ≠ "" then y else match c with | some v => v | none => "") = x
    rw [if_pos ⟨bearer_append_ne_empty x, goHasPre_append "Bearer " x⟩]
    exact goTrimPre_append "Bearer " x
  · show (if ("" : String) ≠ "" ∧ goHasPre "" "Bearer " = true then
        goTrimPre "" "Bearer "
      else if y ≠ "" then y else match c with | some v => v | none => "") =
      (if y ≠ "" then y else c.getD "")
    rw [if_neg (by simp)]
    by_cases hy : y = ""
    · simp only [hy, ne_eq, not_true_eq_false, if_false]
      cases c <;> rfl
    · simp [hy]

/-- C5 witness: with all three transports populated, the Bearer token wins. -/
theorem extractSessionToken_priority_witness :
    extractSessionToken
      { authorization := "Bearer " ++ "abc", xSessionToken := "y", cookie := some "z" }
      = "abc" :=
  (extractSessionToken_priority "abc" "y" (some "z")).1

/-- C10: a non-empty Authorization header without the exact "Bearer " prefix
does not end extraction — the extractor falls through to the X-Session-Token
header and then the cookie, returning `""` only when those yield nothing. -/
theorem extractSessionToken_fallthrough (auth y : String) (c : Option String)
    (_hne : auth ≠ "") (hpre : goHasPre auth "Bearer " = false) :
    extractSessionToken { authorization := auth, xSessionToken := y, cookie := c }
      = (if y ≠ "" then y else c.getD "") := by
  show (if auth ≠ "" ∧ goHasPre auth "Bearer " = true then goTrimPre auth "Bearer "
      else if y ≠ "" then y else match c with | some v => v | none => "") =
    (if y ≠ "" then y else c.getD "")
  rw [if_neg (by rw [hpre]; simp)]
  by_cases hy : y = ""
  · simp only [hy, ne_eq, not_true_eq_false, if_false]
    cases c <;> rfl
  · simp [hy]

/-- C10 witness: a "Token ..." Authorization header falls through to the
X-Session-Token header. -/
theorem extractSessionToken_fallthrough_witness :
    extractSessionToken
      { authorization := "Token abc", xSessionToken := "tok", cookie := none } = "tok" := by
  rw [extractSessionToken_fallthrough "Token abc" "tok" none (by decide) (by decide)]
  rw [if_pos (by decide)]

/-- C6: `getStringFromTraits` is total (a Lean function by construction) and
returns the stored string when the bag is a map with a string at the key, and
`""` in every other case (nil bag, non-map bag, absent key, non-string
value). -/
theorem getStringFromTraits_total (t : TraitValue) (key : String) :
    (∀ entries s, t = TraitValue.map entries →
        lookupTrait entries key = some (TraitValue.str s) →
        getStringFromTraits t key = s) ∧
    ((¬ ∃ entries s, t = TraitValue.map entries ∧
        lookupTrait entries key = some (TraitValue.str s)) →
      getStringFromTraits t key = "") := by
  constructor
  · rintro entries s rfl hl
    simp [getStringFromTraits, hl]
  · intro hno
    cases t with
    | null => rfl
    | str s => rfl
    | num n => rfl
    | boolean b => rfl
    | arr l => rfl
    | map entries =>
      cases hl : lookupTrait entries key with
      | none => simp [getStringFromTraits, hl]
      | some v =>
        cases v with
        | null => simp [getStringFromTraits, hl]
        | str s => exact absurd ⟨entries, s, rfl, hl⟩ hno
        | num n => simp [getStringFromTraits, hl]
        | boolean b => simp [getStringFromTraits, hl]
        | map m => simp [getStringFromTraits, hl]
        | arr l => simp [getStringFromTraits, hl]

/-- C6 witness: a present string key projects to its value. -/
theorem getStringFromTraits_total_witness :
    getStringFromTraits (TraitValue.map [("email", TraitValue.str "a@b.com")]) "email"
      = "a@b.com" :=
  (getStringFromTraits_total (TraitValue.map [("email", TraitValue.str "a@b.com")]) "email").1
    [("email", TraitValue.str "a@b.com")] "a@b.com" rfl rfl

theorem identityUser_fields (ident : Identity) (remote : String → CallResult Identity)
    (h : ident.traits.isNull = false) :
    (identityUser ident remote).email = getStringFromTraits ident.traits "email" ∧
    (identityUser ident remote).username = getStringFromTraits ident.traits "username" ∧
    (identityUser ident remote).firstName = getStringFromTraits ident.traits "first_name" ∧
    (identityUser ident remote).lastName = getStringFromTraits ident.traits "last_name" ∧
    (identityUser ident remote).phone = getStringFromTraits ident.traits "phone" ∧
    (identityUser ident remote).subscriptionPlan
      = getStringFromTraits ident.traits "subscription_plan" ∧
    (identityUser ident remote).avatar = getStringFromTraits ident.traits "avatar" := by
  unfold identityUser
  simp [h]

/-- C7: over the spec-modelled remote store, a successful `updateUser` is the
read-after-write — its result is exactly `getUser` on the post-update store —
and the returned user's projected recognized fields are the projections of
the input trait bag, hence equal to the input entries wherever those entries
are strings. -/
theorem updateUser_roundtrip (store : RemoteStore) (uid : String) (ident : Identity)
    (entries : List (String × TraitValue))
    (hfind : store.find uid = some ident) (hid : ident.id = uid) :
    (updateUserStore store uid (TraitValue.map entries)).1 =
      getUser uid (updateUserStore store uid (TraitValue.map entries)).2.getIdentityCall ∧
    ∃ u, (updateUserStore store uid (TraitValue.map entries)).1 = .ok u ∧
      u.email = getStringFromTraits (TraitValue.map entries) "email" ∧
      u.username = getStringFromTraits (TraitValue.map entries) "username" ∧
      u.firstName = getStringFromTraits (TraitValue.map entries) "first_name" ∧
      u.lastName = getStringFromTraits (TraitValue.map entries) "last_name" ∧
      u.phone = getStringFromTraits (TraitValue.map entries) "phone" ∧
      u.subscriptionPlan = getStringFromTraits (TraitValue.map entries) "subscription_plan" ∧
      u.avatar = getStringFromTraits (TraitValue.map entries) "avatar" := by
  have hupd : updateUserStore store uid (TraitValue.map entries) =
      (getUser uid (RemoteStore.getIdentityCall
        ⟨fun k => if k = uid then some { ident with traits := TraitValue.map entries }
          else store.find k⟩),
       ⟨fun k => if k = uid then some { ident with traits := TraitValue.map entries }
          else store.find k⟩) := by
    unfold updateUserStore RemoteStore.updateIdentityCall
    rw [hfind]
    simp [updateUser, hid]
  have hR : RemoteStore.getIdentityCall
      ⟨fun k => if k = uid then some { ident with traits := TraitValue.map entries }
        else store.find k⟩ uid =
      .ok 200 { ident with traits := TraitValue.map entries } := by
    unfold RemoteStore.getIdentityCall
    simp
  constructor
  · rw [hupd]
  · rw [hupd]
    refine ⟨identityUser { ident with traits := TraitValue.map entries }
      (RemoteStore.getIdentityCall
        ⟨fun k => if k = uid then some { ident with traits := TraitValue.map entries }
          else store.find k⟩), by simp [getUser.eq_def, hR], ?_⟩
    exact identityUser_fields { ident with traits := TraitValue.map entries } _ rfl

/-- C7 witness: updating the lone identity's traits to a bag with one email
entry and re-reading yields a user projecting exactly that email. -/
theorem updateUser_roundtrip_witness :
    ∃ u, (updateUserStore ⟨fun k => if k = "u1" then some { id := "u1" } else none⟩ "u1"
        (TraitValue.map [("email", TraitValue.str "a@b.com")])).1 = .ok u ∧
      u.email = "a@b.com" := by
  obtain ⟨-, u, hu, he, -⟩ := updateUser_roundtrip
    ⟨fun k => if k = "u1" then some { id := "u1" } else none⟩ "u1" { id := "u1" }
    [("email", TraitValue.str "a@b.com")] (by simp) rfl
  exact ⟨u, hu, by rw [he]; rfl⟩

/-- C8, counterexample: at a 500 response (a failure that is neither a
transport failure nor the not-found status), `getUser` produces the not-found
error kind ("user not found: status 500"), not the transport kind — the code
maps every non-200 status to the not-found message. -/
theorem getUser_status500_notFound :
    getUser "u1" (fun _ => CallResult.ok 500 {}) =
      .error (.userNotFound 500) := rfl

/-- C8, amended: `getUser` fails with the not-found kind exactly when the
remote answered with any non-200 status, and with the transport kind exactly
when the call failed at the transport level; the two kinds are distinct
constructors (distinct format strings), hence distinguishable. -/
theorem getUser_error_kinds (uid : String) (remote : String → CallResult Identity) :
    ((∃ s, getUser uid remote = .error (.userNotFound s)) ↔
      ∃ s ident, remote uid = CallResult.ok s ident ∧ s ≠ 200) ∧
    (getUser uid remote = .error .getUserTransport ↔
      remote uid = CallResult.netErr) := by
  refine ⟨⟨?_, ?_⟩, ⟨?_, ?_⟩⟩
  · rintro ⟨s, hs⟩
    cases hr : remote uid with
    | netErr => simp [getUser.eq_def, hr] at hs
    | ok st ident =>
      by_cases h200 : st = 200
      · simp [getUser.eq_def, hr, h200] at hs
      · exact ⟨st, ident, rfl, h200⟩
  · rintro ⟨s, ident, hr, hs⟩
    exact ⟨s, by simp [getUser.eq_def, hr, hs]⟩
  · intro h
    cases hr : remote uid with
    | netErr => rfl
    | ok st ident => by_cases h200 : st = 200 <;> simp [getUser.eq_def, hr, h200] at h
  · intro hr
    simp [getUser.eq_def, hr]

/-- C8 witness for the amended theorem: a transport failure yields the
transport error kind. -/
theorem getUser_error_kinds_witness :
    getUser "u1" (fun _ => CallResult.netErr) = .error .getUserTransport :=
  (getUser_error_kinds "u1" (fun _ => CallResult.netErr)).2.mpr rfl

/-- C9: the middleware responds 401 with body "Session token required" when no
transport yields a token (and does not invoke the next handler), responds 401
with body "Invalid session" when a token was extracted but validation fails
(again without invoking the next handler), and invokes the next handler with
the validated user bound exactly on successful validation — the three
outcomes are mutually exclusive constructors, so a failure binds no
principal. -/
theorem sessionMiddleware_cases (r : Request)
    (introspect : String → CallResult Session)
    (remote : String → CallResult Identity) :
    (extractSessionToken r = "" →
      sessionMiddleware r introspect remote = .unauthorized "Session token required") ∧
    (extractSessionToken r ≠ "" →
      (∃ e, validateSession (extractSessionToken r)
          (introspect (extractSessionToken r)) remote = .error e) →
      sessionMiddleware r introspect remote = .unauthorized "Invalid session") ∧
    (∀ u, sessionMiddleware r introspect remote = .next u →
      validateSession (extractSessionToken r)
        (introspect (extractSessionToken r)) remote = .ok u) := by
  refine ⟨fun h => by simp [sessionMiddleware, h], fun hne he => ?_, fun u hu => ?_⟩
  · obtain ⟨e, he⟩ := he
    simp [sessionMiddleware, hne, he]
  · by_cases h : extractSessionToken r = ""
    · simp [sessionMiddleware, h] at hu
    · simp only [sessionMiddleware, h, if_false, ne_eq, not_false_eq_true, reduceIte] at hu
      cases hv : validateSession (extractSessionToken r)
          (introspect (extractSessionToken r)) remote with
      | error e => rw [hv] at hu; exact absurd hu (by simp)
      | ok u' =>
        rw [hv] at hu
        injection hu with h
        rw [← h]

/-- C9 witness: a request with no credential in any transport is rejected
with "Session token required". -/
theorem sessionMiddleware_cases_witness :
    sessionMiddleware {} (fun _ => CallResult.netErr) (fun _ => CallResult.netErr) =
      .unauthorized "Session token required" :=
  (sessionMiddleware_cases {} (fun _ => CallResult.netErr)
    (fun _ => CallResult.netErr)).1 rfl

end KratosAuth
